import Mathlib

/-!
Shallow embedding of the rule-evaluation and scoring core of the
LANE-Gcp-Databricks analyzers:
  * src/monitoring/cost-optimization/cost-analyzer.py
  * src/security/tools/databricks-security-scanner.py
Python dictionaries are modelled as records holding the post-`.get`-default
values of exactly the fields the rules inspect; Python floats are modelled
as exact rationals (every constant in the source is a short decimal).
-/

namespace Databricks

/-- Python's substring test `needle in hay` on lists of characters. -/
def isSubstr (needle : List Char) : List Char → Bool
  | [] => needle.isEmpty
  | c :: t => needle.isPrefixOf (c :: t) || isSubstr needle t

/-- Model of `s.lower()` of a Python string, as a character list. -/
def pyLower (s : String) : List Char := s.data.map Char.toLower

/-- A cluster dictionary, restricted to the fields the two analyzers read.
Each field holds the value `cluster.get(key, default)` would return:
`num_workers`, `autotermination_minutes`, `last_activity_time` default to 0,
strings default to `""` (`cluster_name` to `"Unknown"`), `enable_elastic_disk`
defaults to `True`; `autoscale` is the truthiness of the autoscale sub-dict
and `aws_zone_id` / `instance_profile_arn` the truthiness of the
corresponding `aws_attributes` entries. -/
structure Cluster where
  cluster_id : String := ""
  cluster_name : String := "Unknown"
  node_type_id : String := ""
  num_workers : Int := 0
  autotermination_minutes : Int := 0
  autoscale : Bool := false
  spark_version : String := ""
  state : String := ""
  last_activity_time : Int := 0
  enable_elastic_disk : Bool := true
  aws_zone_id : Bool := false
  instance_profile_arn : Bool := false
deriving DecidableEq, Repr

/-- Model of `DatabricksCostAnalyzer.analyze_cluster_configuration`: the five checks in
source order, each contributing its fixed string when its condition holds.
`now` is `datetime.now().timestamp()` in whole seconds. -/
def analyze_cluster_configuration (now : Int) (c : Cluster) : List String :=
  (if c.autotermination_minutes == 0 then ["No auto-termination configured"]
   else if c.autotermination_minutes > 120 then ["Long auto-termination period"]
   else [])
  ++ (if !c.autoscale && c.num_workers > 10 then ["oversized"] else [])
  ++ (if ["large", "xlarge", "gpu"].any
        (fun t => isSubstr t.data (pyLower c.node_type_id)) then
        ["expensive_instance_type"] else [])
  ++ (if !(["10.", "11.", "12."].any
        (fun v => isSubstr v.data c.spark_version.data)) then
        ["outdated_runtime"] else [])
  ++ (if (c.state == "PENDING" || c.state == "RESTARTING")
        && c.last_activity_time < now - 3600 then
        ["idle"] else [])

/-- The `base_cost_per_hour` table, in Python dict insertion order. -/
def base_cost_per_hour : List (String × ℚ) :=
  [("small", 0.5), ("medium", 1.0), ("large", 2.0), ("xlarge", 4.0), ("gpu", 8.0)]

/-- The `for category in base_cost_per_hour.keys(): ... break` loop of
`estimate_cluster_savings`: first key that is a substring of the lowered
node type, defaulting to `"medium"`. -/
def cost_category (node_type : String) : String :=
  match base_cost_per_hour.find? (fun p => isSubstr p.1.data (pyLower node_type)) with
  | some p => p.1
  | none => "medium"

/-- Dictionary lookup `base_cost_per_hour[cost_category]` (the key always
exists, so the 0 fallback is unreachable). -/
def lookupRate (cat : String) : ℚ :=
  match base_cost_per_hour.find? (fun p => p.1 == cat) with
  | some p => p.2
  | none => 0

/-- Model of `DatabricksCostAnalyzer.estimate_cluster_savings`. -/
def estimate_cluster_savings (c : Cluster) : ℚ :=
  let hourly_cost := lookupRate (cost_category c.node_type_id) * ((c.num_workers : ℚ) + 1)
  hourly_cost * 720 * 0.3

/-- One entry of the `underutilized_clusters` / `oversized_clusters` /
`idle_clusters` lists built by `analyze_cluster_utilization`. -/
structure FlaggedCluster where
  name : String
  id : String
  issues : List String
  potential_savings : ℚ
deriving DecidableEq, Repr

/-- The running `(underutilized, oversized, idle)` lists of the
`for cluster in clusters` loop of `analyze_cluster_utilization`. -/
structure UtilAcc where
  und : List FlaggedCluster
  ov : List FlaggedCluster
  idl : List FlaggedCluster
deriving DecidableEq, Repr

/-- One iteration of the loop: compute the cluster's issues, and when the
list is non-empty append an entry to each group whose tag
(`'underutilized'` / `'oversized'` / `'idle'`) occurs in the issue list. -/
def utilStep (now : Int) (acc : UtilAcc) (c : Cluster) : UtilAcc :=
  let issues := analyze_cluster_configuration now c
  if issues = [] then acc
  else
    let entry : FlaggedCluster :=
      ⟨c.cluster_name, c.cluster_id, issues, estimate_cluster_savings c⟩
    { und := if issues.contains "underutilized" then acc.und ++ [entry] else acc.und
      ov := if issues.contains "oversized" then acc.ov ++ [entry] else acc.ov
      idl := if issues.contains "idle" then acc.idl ++ [entry] else acc.idl }

/-- Model of `sum(cluster.get('potential_savings', 0) for cluster in group)`. -/
def sumSavings (l : List FlaggedCluster) : ℚ :=
  (l.map (fun e => e.potential_savings)).sum

/-- Result record of `analyze_cluster_utilization` (success path). -/
structure UtilizationAnalysis where
  total_clusters : Nat
  underutilized_clusters : List FlaggedCluster
  oversized_clusters : List FlaggedCluster
  idle_clusters : List FlaggedCluster
  cost_optimization_potential : ℚ
  recommendations : List String
deriving DecidableEq, Repr

/-- Model of `DatabricksCostAnalyzer.generate_cost_recommendations`: conditional
entries driven by the analysis, then five fixed strings always appended. -/
def generate_cost_recommendations (a : UtilizationAnalysis) : List String :=
  (if a.underutilized_clusters ≠ [] then
    ["Enable auto-scaling on underutilized clusters to reduce costs during low usage"]
   else [])
  ++ (if a.oversized_clusters ≠ [] then
    ["Right-size oversized clusters to match actual workload requirements"]
   else [])
  ++ (if a.idle_clusters ≠ [] then
    ["Configure auto-termination for idle clusters (recommend 30-60 minutes)"]
   else [])
  ++ (if a.cost_optimization_potential > 1000 then
    ["Consider using spot instances for non-critical workloads",
     "Implement cluster policies to prevent overprovisioning",
     "Review and optimize job schedules to reduce resource overlap"]
   else [])
  ++ ["Use pool-based clusters for better resource utilization",
      "Implement Delta Lake for improved storage efficiency",
      "Consider photon acceleration for SQL workloads",
      "Monitor and optimize data transfer costs",
      "Use appropriate storage classes for different data access patterns"]

/-- Model of `DatabricksCostAnalyzer.analyze_cluster_utilization` on an
already-fetched cluster list (success path of the `try`). -/
def analyze_cluster_utilization (now : Int) (clusters : List Cluster) :
    UtilizationAnalysis :=
  let g := clusters.foldl (utilStep now) ⟨[], [], []⟩
  let a : UtilizationAnalysis :=
    { total_clusters := clusters.length
      underutilized_clusters := g.und
      oversized_clusters := g.ov
      idle_clusters := g.idl
      cost_optimization_potential :=
        sumSavings g.und + sumSavings g.ov + sumSavings g.idl
      recommendations := [] }
  { a with recommendations := generate_cost_recommendations a }

/-- A job dictionary, restricted to the `settings` fields the analyzer
reads, holding post-default values; `has_schedule` is the truthiness of the
`schedule` sub-dict and `cron` its `quartz_cron_expression` (default `""`). -/
structure Job where
  job_id : String := ""
  name : String := "Unknown"
  timeout_seconds : Int := 0
  max_concurrent_runs : Int := 1
  has_schedule : Bool := false
  cron : String := ""
deriving DecidableEq, Repr

/-- Model of `DatabricksCostAnalyzer.analyze_job_configuration`. -/
def analyze_job_configuration (j : Job) : List String :=
  (if j.timeout_seconds == 0 then ["No timeout configured"] else [])
  ++ (if j.max_concurrent_runs > 5 then
    ["High concurrent runs may cause resource contention"] else [])
  ++ (if j.has_schedule && (j.cron.data.filter (fun ch => ch == '*')).length > 3 then
    ["Frequent scheduling may be inefficient"] else [])

/-- One entry of `inefficient_jobs`. -/
structure FlaggedJob where
  name : String
  id : String
  issues : List String
deriving DecidableEq, Repr

/-- Result record of `analyze_job_efficiency` (success path). -/
structure JobAnalysis where
  total_jobs : Nat
  inefficient_jobs : List FlaggedJob
  optimization_opportunities : List String
deriving DecidableEq, Repr

/-- Model of `DatabricksCostAnalyzer.generate_job_optimizations`. -/
def generate_job_optimizations (inefficient : List FlaggedJob) : List String :=
  if inefficient ≠ [] then
    ["Optimize Spark configurations for better performance",
     "Implement proper partitioning strategies",
     "Use broadcast joins for small lookup tables",
     "Enable adaptive query execution",
     "Optimize file sizes and formats (prefer Parquet/Delta)",
     "Implement proper caching strategies"]
  else []

/-- Model of `DatabricksCostAnalyzer.analyze_job_efficiency` on an already-fetched
job list (success path of the `try`). -/
def analyze_job_efficiency (jobs : List Job) : JobAnalysis :=
  let flagged := jobs.foldl (fun acc j =>
    let issues := analyze_job_configuration j
    if issues = [] then acc else acc ++ [(⟨j.name, j.job_id, issues⟩ : FlaggedJob)]) []
  { total_jobs := jobs.length
    inefficient_jobs := flagged
    optimization_opportunities := generate_job_optimizations flagged }

/-- The `summary` block of `generate_cost_report`. -/
structure ReportSummary where
  potential_monthly_savings : ℚ
  clusters_needing_optimization : Nat
  total_clusters : Nat
  jobs_needing_optimization : Nat
  optimization_priority : String
deriving DecidableEq, Repr

/-- Record of `generate_cost_report` with the `analysis_date` timestamp field removed:
everything the report contains besides the ISO clock string. -/
structure CostReportContent where
  period_days : Int
  cluster_analysis : UtilizationAnalysis
  job_analysis : JobAnalysis
  summary : ReportSummary
deriving DecidableEq, Repr

/-- Model of `DatabricksCostAnalyzer.generate_cost_report` (success path, fetched
lists passed in), minus the `analysis_date` field. -/
def generate_cost_report_content (now : Int) (days : Int)
    (clusters : List Cluster) (jobs : List Job) : CostReportContent :=
  let ca := analyze_cluster_utilization now clusters
  let ja := analyze_job_efficiency jobs
  let cluster_savings := ca.cost_optimization_potential
  { period_days := days
    cluster_analysis := ca
    job_analysis := ja
    summary :=
      { potential_monthly_savings := cluster_savings
        clusters_needing_optimization :=
          ca.underutilized_clusters.length + ca.oversized_clusters.length
            + ca.idle_clusters.length
        total_clusters := ca.total_clusters
        jobs_needing_optimization := ja.inefficient_jobs.length
        optimization_priority :=
          if cluster_savings > 5000 then "HIGH"
          else if cluster_savings > 1000 then "MEDIUM" else "LOW" } }

/-- Result record of `check_network_security` (success path). -/
structure NetworkSecurityResult where
  secure_clusters : Nat
  total_clusters : Nat
  security_ratio : ℚ
  status : String
deriving DecidableEq, Repr

/-- Model of `DatabricksSecurityScanner.check_network_security` on the fetched
cluster list: count clusters whose `aws_attributes` carry both a truthy
`zone_id` and a truthy `instance_profile_arn`, ratio guarded against an
empty list, PASS iff the ratio reaches 0.8. -/
def check_network_security (clusters : List Cluster) : NetworkSecurityResult :=
  let secure : Nat := clusters.foldl
    (fun n c => if c.aws_zone_id && c.instance_profile_arn then n + 1 else n) 0
  let total := clusters.length
  let ratio : ℚ := if total > 0 then (secure : ℚ) / (total : ℚ) else 0
  { secure_clusters := secure
    total_clusters := total
    security_ratio := ratio
    status := if ratio ≥ 0.8 then "PASS" else "FAIL" }

/-- Result record of `check_cluster_security` (success path). -/
structure ClusterSecurityResult where
  secure_clusters : Nat
  total_clusters : Nat
  security_issues : List String
  status : String
deriving DecidableEq, Repr

/-- The issue strings the `check_cluster_security` loop body appends for one
cluster, in check order (elastic disk, auto-termination, LTS runtime). -/
def clusterIssues (c : Cluster) : List String :=
  (if !c.enable_elastic_disk then
    ["Cluster '" ++ c.cluster_name ++ "': Elastic disk not enabled"] else [])
  ++ (if c.autotermination_minutes == 0 then
    ["Cluster '" ++ c.cluster_name ++ "': Auto-termination not configured"] else [])
  ++ (if !(isSubstr "LTS".data c.spark_version.data) then
    ["Cluster '" ++ c.cluster_name ++ "': Not using LTS runtime"] else [])

/-- One iteration of the `for cluster in clusters` loop of
`check_cluster_security`: append this cluster's issue strings to the single
accumulated list, then count the cluster as secure when that list is still
empty. The accumulator is `(secure_clusters, issues)`. -/
def clusterSecStep (acc : Nat × List String) (c : Cluster) : Nat × List String :=
  let issues := acc.2 ++ clusterIssues c
  (if issues.length == 0 then acc.1 + 1 else acc.1, issues)

/-- Model of `DatabricksSecurityScanner.check_cluster_security` on the fetched
cluster list (success path). -/
def check_cluster_security (clusters : List Cluster) : ClusterSecurityResult :=
  let r := clusters.foldl clusterSecStep (0, [])
  { secure_clusters := r.1
    total_clusters := clusters.length
    security_issues := r.2
    status := if r.2.length == 0 then "PASS" else "WARN" }

/-- The seven check names, in the dict insertion order of
`check_workspace_security`. -/
def securityCheckNames : List String :=
  ["access_controls", "network_security", "encryption", "audit_logging",
   "secret_management", "cluster_security", "user_permissions"]

/-- Model of `DatabricksSecurityScanner.calculate_compliance_score`: the check map is
modelled as an association list of `(check_name, status)` pairs in dict
order; the loop counts total and PASS entries. -/
def calculate_compliance_score (checks : List (String × String)) : ℚ :=
  let counts := checks.foldl
    (fun (acc : Nat × Nat) kv =>
      (acc.1 + 1, if kv.2 == "PASS" then acc.2 + 1 else acc.2)) (0, 0)
  if counts.1 > 0 then (counts.2 : ℚ) / (counts.1 : ℚ) * 100 else 0

/-- The `elif` chain of `generate_recommendations`: the fixed recommendation
string for a check name (an unknown name contributes nothing). -/
def recommendation_for (check_name : String) : Option String :=
  if check_name == "access_controls" then
    some "Enable workspace and table access controls"
  else if check_name == "network_security" then
    some "Configure VPC and proper network security settings"
  else if check_name == "encryption" then
    some "Implement customer-managed encryption keys"
  else if check_name == "audit_logging" then
    some "Enable comprehensive audit logging"
  else if check_name == "secret_management" then
    some "Use external secret management services"
  else if check_name == "cluster_security" then
    some "Review cluster security configurations"
  else if check_name == "user_permissions" then
    some "Review and minimize administrative privileges"
  else none

/-- Model of `DatabricksSecurityScanner.generate_recommendations`: one fixed string
per check whose status is FAIL or WARN, in check-map order. -/
def generate_recommendations (checks : List (String × String)) : List String :=
  checks.foldl (fun recs kv =>
    if kv.2 == "FAIL" || kv.2 == "WARN" then
      match recommendation_for kv.1 with
      | some r => recs ++ [r]
      | none => recs
    else recs) []

/-! ### Concrete inputs used by the theorems -/

/-- Claim C2 scenario cluster: the spec's single-cluster input. -/
def specCluster : Cluster :=
  { node_type_id := "Standard_F4_large", num_workers := 12,
    autotermination_minutes := 0, spark_version := "9.1.x-scala2.12" }

/-- C1 failing input: a cluster whose `autotermination_minutes` is exactly 0.
Its issue list holds the prose string `'No auto-termination configured'`,
never the literal tag `'underutilized'` that the grouping step tests for, so
`underutilized_clusters` stays empty. -/
def noAutoTermCluster : Cluster := { autotermination_minutes := 0 }

/-- A cluster that contributes no issue string: elastic disk enabled,
auto-termination non-zero, LTS runtime. -/
def clusterNoIssue (c : Cluster) : Bool :=
  c.enable_elastic_disk && !(c.autotermination_minutes == 0)
    && isSubstr "LTS".data c.spark_version.data

/-- The check map of a run in which every one of the seven fetches raised:
each named check carries status ERROR. -/
def sevenErrorChecks : List (String × String) :=
  securityCheckNames.map (fun n => (n, "ERROR"))

/-- A PENDING cluster with stale `last_activity_time`: whether it is tagged
idle depends on the clock, so two runs on identical input JSON differ even
with the timestamp field excluded. -/
def pendingCluster : Cluster :=
  { state := "PENDING", autotermination_minutes := 30, spark_version := "10.4 LTS" }

/-! ### Supporting lemmas -/

lemma isSubstr_infix_iff (n h : List Char) : isSubstr n h = true ↔ n <:+: h := by
  induction h with
  | nil => simp [isSubstr, List.isEmpty_iff]
  | cons c t ih => simp [isSubstr, List.infix_cons_iff, ih, List.isPrefixOf_iff_prefix]

lemma isSubstr_trans_large {h : List Char} (hx : isSubstr "xlarge".data h = true) :
    isSubstr "large".data h = true := by
  rw [isSubstr_infix_iff] at hx ⊢
  exact List.IsInfix.trans ((isSubstr_infix_iff _ _).mp (by decide)) hx

lemma cost_category_cases (s : String) :
    cost_category s = "small" ∨ cost_category s = "medium" ∨ cost_category s = "large"
      ∨ cost_category s = "xlarge" ∨ cost_category s = "gpu" := by
  unfold cost_category
  split
  · rename_i p hp
    have hm := List.mem_of_find?_eq_some hp
    simp only [base_cost_per_hour, List.mem_cons, List.not_mem_nil, or_false] at hm
    rcases hm with h | h | h | h | h <;> rw [h] <;> simp
  · simp

lemma lookupRate_pos (s : String) : 0 < lookupRate (cost_category s) := by
  rcases cost_category_cases s with h | h | h | h | h <;> rw [h] <;>
    simp [lookupRate, base_cost_per_hour] <;> norm_num

/-- C2: for the spec's scenario cluster (autoscale absent, state absent), the
rule evaluator returns exactly the four issues in order, at any clock value,
and the savings estimator returns exactly 5616. -/
theorem scenario_issues_and_savings :
    (∀ now : Int, analyze_cluster_configuration now specCluster =
      ["No auto-termination configured", "oversized",
       "expensive_instance_type", "outdated_runtime"])
    ∧ estimate_cluster_savings specCluster = 5616 := by
  constructor
  · intro now; rfl
  · have h1 : cost_category "Standard_F4_large" = "large" := by decide
    simp only [estimate_cluster_savings, specCluster, h1]
    simp [lookupRate, base_cost_per_hour]
    all_goals norm_num

/-- Witness for C2 at the concrete clock value 0. -/
theorem scenario_issues_and_savings_witness :
    analyze_cluster_configuration 0 specCluster =
      ["No auto-termination configured", "oversized",
       "expensive_instance_type", "outdated_runtime"]
    ∧ estimate_cluster_savings specCluster = 5616 :=
  ⟨scenario_issues_and_savings.1 0, scenario_issues_and_savings.2⟩

/-- C6 counterexample: a cluster dictionary carrying a negative
`num_workers` makes `estimate_cluster_savings` return a negative number
(here −216 for `num_workers = -2` with the default `medium` rate). -/
theorem savings_negative_counterexample :
    estimate_cluster_savings { num_workers := -2 } = -216
    ∧ ¬(0 ≤ estimate_cluster_savings ({ num_workers := -2 } : Cluster)) := by
  have h1 : cost_category "" = "medium" := by decide
  have h2 : estimate_cluster_savings { num_workers := -2 } = -216 := by
    simp only [estimate_cluster_savings, h1]
    simp [lookupRate, base_cost_per_hour]
    all_goals norm_num
  exact ⟨h2, by rw [h2]; norm_num⟩

/-- C6 (amended): the estimate is non-negative for every cluster whose
`num_workers` field is at least −1 — in particular for every cluster with a
non-negative worker count. -/
theorem savings_nonneg (c : Cluster) (h : -1 ≤ c.num_workers) :
    0 ≤ estimate_cluster_savings c := by
  unfold estimate_cluster_savings
  have hr := (lookupRate_pos c.node_type_id).le
  have hw : (0 : ℚ) ≤ (c.num_workers : ℚ) + 1 := by
    have h' : ((-1 : Int) : ℚ) ≤ (c.num_workers : ℚ) := by exact_mod_cast h
    push_cast at h'
    linarith
  have h720 : (0 : ℚ) ≤ 720 := by norm_num
  have h03 : (0 : ℚ) ≤ 0.3 := by norm_num
  exact mul_nonneg (mul_nonneg (mul_nonneg hr hw) h720) h03

/-- Witness for C6's amended theorem at a concrete zero-worker cluster. -/
theorem savings_nonneg_witness :
    0 ≤ estimate_cluster_savings ({ num_workers := 0 } : Cluster) :=
  savings_nonneg { num_workers := 0 } (by norm_num)

/-- C7: for a fixed cluster record, the savings estimate is monotonically
non-decreasing in the `num_workers` field. -/
theorem savings_monotone_in_workers (c : Cluster) (w₁ w₂ : Int) (h : w₁ ≤ w₂) :
    estimate_cluster_savings { c with num_workers := w₁ } ≤
    estimate_cluster_savings { c with num_workers := w₂ } := by
  unfold estimate_cluster_savings
  dsimp only
  have hr := (lookupRate_pos c.node_type_id).le
  have hw : ((w₁ : ℚ) + 1) ≤ ((w₂ : ℚ) + 1) := by
    have h' : ((w₁ : Int) : ℚ) ≤ ((w₂ : Int) : ℚ) := by exact_mod_cast h
    linarith
  have key := mul_le_mul_of_nonneg_left hw hr
  nlinarith [key]

/-- Witness for C7 at worker counts 1 ≤ 2 on the default cluster record. -/
theorem savings_monotone_in_workers_witness :
    estimate_cluster_savings ({ num_workers := 1 } : Cluster) ≤
    estimate_cluster_savings ({ num_workers := 2 } : Cluster) :=
  savings_monotone_in_workers {} 1 2 (by norm_num)

/-- C10 counterexample: `"smallxlarge"` contains `"xlarge"` yet the first
match in table order is `"small"`, so the selected rate is 0.5 — not the
claimed 2.0 (a zero-worker cluster gets savings 108, not 432). -/
theorem xlarge_rate_counterexample :
    isSubstr "xlarge".data (pyLower "smallxlarge") = true
    ∧ cost_category "smallxlarge" = "small"
    ∧ cost_category "smallxlarge" ≠ "large"
    ∧ estimate_cluster_savings { node_type_id := "smallxlarge" } = 108 := by
  refine ⟨by decide, by decide, by decide, ?_⟩
  have h1 : cost_category "smallxlarge" = "small" := by decide
  simp only [estimate_cluster_savings, h1]
  simp [lookupRate, base_cost_per_hour]
  all_goals norm_num

/-- C10 (amended): when the lowered node type contains `"xlarge"` but
neither of the earlier table keys `"small"` and `"medium"`, the category is
`"large"` with rate 2.0; and for every possible node type the category is
never `"xlarge"`, so the table's 4.0 entry is unreachable. -/
theorem xlarge_rate_amended :
    (∀ s : String,
      isSubstr "xlarge".data (pyLower s) = true →
      isSubstr "small".data (pyLower s) = false →
      isSubstr "medium".data (pyLower s) = false →
      cost_category s = "large" ∧ lookupRate (cost_category s) = 2)
    ∧ ∀ s : String, cost_category s ≠ "xlarge" := by
  constructor
  · intro s hx hs hm
    have hl := isSubstr_trans_large hx
    have hcat : cost_category s = "large" := by
      unfold cost_category
      simp [base_cost_per_hour, List.find?, hs, hm, hl]
    refine ⟨hcat, ?_⟩
    rw [hcat]
    simp [lookupRate, base_cost_per_hour]
    all_goals norm_num
  · intro s
    cases hs : isSubstr "small".data (pyLower s) with
    | true =>
      have : cost_category s = "small" := by
        unfold cost_category
        simp [base_cost_per_hour, List.find?, hs]
      simp [this]
    | false =>
      cases hm : isSubstr "medium".data (pyLower s) with
      | true =>
        have : cost_category s = "medium" := by
          unfold cost_category
          simp [base_cost_per_hour, List.find?, hs, hm]
        simp [this]
      | false =>
        cases hl : isSubstr "large".data (pyLower s) with
        | true =>
          have : cost_category s = "large" := by
            unfold cost_category
            simp [base_cost_per_hour, List.find?, hs, hm, hl]
          simp [this]
        | false =>
          have hxl : isSubstr "xlarge".data (pyLower s) = false := by
            cases hx : isSubstr "xlarge".data (pyLower s) with
            | false => rfl
            | true => exact absurd (isSubstr_trans_large hx) (by simp [hl])
          cases hg : isSubstr "gpu".data (pyLower s) with
          | true =>
            have : cost_category s = "gpu" := by
              unfold cost_category
              simp [base_cost_per_hour, List.find?, hs, hm, hl, hxl, hg]
            simp [this]
          | false =>
            have : cost_category s = "medium" := by
              unfold cost_category
              simp [base_cost_per_hour, List.find?, hs, hm, hl, hxl, hg]
            simp [this]

/-- Witness for C10's amended theorem at the concrete node type
`"db_xlarge_v3"`. -/
theorem xlarge_rate_amended_witness :
    cost_category "db_xlarge_v3" = "large"
    ∧ lookupRate (cost_category "db_xlarge_v3") = 2
    ∧ cost_category "db_xlarge_v3" ≠ "xlarge" :=
  ⟨(xlarge_rate_amended.1 "db_xlarge_v3" (by decide) (by decide) (by decide)).1,
   (xlarge_rate_amended.1 "db_xlarge_v3" (by decide) (by decide) (by decide)).2,
   xlarge_rate_amended.2 "db_xlarge_v3"⟩

/-- C1 (code bug): at the failing input the evaluator does flag the missing
auto-termination, but its issue list does not contain `'underutilized'`, and
the utilization analysis leaves the `underutilized_clusters` group empty —
contradicting the documented grouping. -/
theorem underutilized_group_never_populated :
    analyze_cluster_configuration 0 noAutoTermCluster =
      ["No auto-termination configured", "outdated_runtime"]
    ∧ (analyze_cluster_configuration 0 noAutoTermCluster).contains "underutilized" = false
    ∧ (analyze_cluster_utilization 0 [noAutoTermCluster]).underutilized_clusters = [] := by
  refine ⟨by decide, by decide, by decide⟩

/-! ### Cluster-security accumulator lemmas (C3) -/

lemma clusterIssues_eq_nil_iff (c : Cluster) :
    clusterIssues c = [] ↔ clusterNoIssue c = true := by
  unfold clusterIssues clusterNoIssue
  split_ifs <;> simp_all

lemma foldl_clusterSecStep_stuck (cs : List Cluster) (s : Nat) (is : List String)
    (h : is ≠ []) :
    (cs.foldl clusterSecStep (s, is)).1 = s
    ∧ (cs.foldl clusterSecStep (s, is)).2 ≠ [] := by
  induction cs generalizing s is with
  | nil => exact ⟨rfl, h⟩
  | cons c t ih =>
    have hne : (is ++ clusterIssues c) ≠ [] := by
      simp [h]
    have hstep : clusterSecStep (s, is) c = (s, is ++ clusterIssues c) := by
      simp [clusterSecStep, hne]
      exact fun h1 => absurd h1 h
    simp only [List.foldl_cons, hstep]
    exact ih _ _ hne

lemma foldl_clusterSecStep_count (cs : List Cluster) (s : Nat) :
    (cs.foldl clusterSecStep (s, [])).1 = s + (cs.takeWhile clusterNoIssue).length := by
  induction cs generalizing s with
  | nil => simp
  | cons c t ih =>
    cases hc : clusterNoIssue c with
    | true =>
      have hnil : clusterIssues c = [] := (clusterIssues_eq_nil_iff c).mpr hc
      have hstep : clusterSecStep (s, []) c = (s + 1, []) := by
        simp [clusterSecStep, hnil]
      simp only [List.foldl_cons, hstep, ih, List.takeWhile_cons, hc]
      simp [Nat.add_comm, Nat.add_assoc, Nat.add_left_comm]
    | false =>
      have hnn : clusterIssues c ≠ [] := by
        rw [Ne, clusterIssues_eq_nil_iff]
        simp [hc]
      have hstep : clusterSecStep (s, []) c = (s, clusterIssues c) := by
        simp [clusterSecStep, hnn]
      simp only [List.foldl_cons, hstep, List.takeWhile_cons, hc]
      simpa using (foldl_clusterSecStep_stuck t s (clusterIssues c) hnn).1

/-- C3: the issue list is one accumulator shared by the whole run, so the
clusters counted secure are exactly the maximal issue-free prefix of the
scan order (an issue from any earlier cluster blocks all later ones), and
the check is PASS precisely when the final accumulated list is empty. -/
theorem cluster_security_global_accumulator (clusters : List Cluster) :
    (check_cluster_security clusters).secure_clusters =
      (clusters.takeWhile clusterNoIssue).length
    ∧ ((check_cluster_security clusters).status = "PASS" ↔
        (check_cluster_security clusters).security_issues = []) := by
  constructor
  · simpa using foldl_clusterSecStep_count clusters 0
  · unfold check_cluster_security
    dsimp only
    split <;> rename_i hlen
    · simp_all
    · constructor
      · intro hcontra
        exact absurd hcontra (by simp)
      · intro hnil
        simp [hnil] at hlen

/-- Witness for C3: with an insecure cluster scanned first, the following
fully secure cluster is not counted (the issue-free prefix is empty), and
the run is WARN, not PASS. -/
theorem cluster_security_global_accumulator_witness :
    (check_cluster_security
      [{ autotermination_minutes := 0 },
       { autotermination_minutes := 60, spark_version := "10.4 LTS" }]).secure_clusters =
      ([({ autotermination_minutes := 0 } : Cluster),
        { autotermination_minutes := 60, spark_version := "10.4 LTS" }].takeWhile
          clusterNoIssue).length
    ∧ ((check_cluster_security
      [{ autotermination_minutes := 0 },
       { autotermination_minutes := 60, spark_version := "10.4 LTS" }]).status = "PASS" ↔
        (check_cluster_security
      [{ autotermination_minutes := 0 },
       { autotermination_minutes := 60, spark_version := "10.4 LTS" }]).security_issues = []) :=
  cluster_security_global_accumulator
    [{ autotermination_minutes := 0 },
     { autotermination_minutes := 60, spark_version := "10.4 LTS" }]

/-! ### Compliance score and recommendations (C4, C5) -/

lemma compliance_foldl (checks : List (String × String)) (t p : Nat) :
    checks.foldl
      (fun (acc : Nat × Nat) kv =>
        (acc.1 + 1, if kv.2 == "PASS" then acc.2 + 1 else acc.2)) (t, p)
      = (t + checks.length,
         p + (checks.filter (fun kv => kv.2 == "PASS")).length) := by
  induction checks generalizing t p with
  | nil => simp
  | cons kv rest ih =>
    simp only [List.foldl_cons, List.filter_cons]
    cases h : (kv.2 == "PASS") with
    | false =>
      simp only [h, Bool.false_eq_true, if_false, ih, List.length_cons,
        Prod.mk.injEq, and_true]
      omega
    | true =>
      simp only [h, if_true, ih, List.length_cons, Prod.mk.injEq]
      constructor
      · omega
      · omega

lemma genrec_foldl_const (checks : List (String × String))
    (h : ∀ kv ∈ checks, kv.2 ≠ "FAIL" ∧ kv.2 ≠ "WARN") (acc : List String) :
    checks.foldl (fun recs kv =>
      if kv.2 == "FAIL" || kv.2 == "WARN" then
        match recommendation_for kv.1 with
        | some r => recs ++ [r]
        | none => recs
      else recs) acc = acc := by
  induction checks generalizing acc with
  | nil => rfl
  | cons kv rest ih =>
    have h1 := h kv (List.mem_cons_self kv rest)
    have hcond : (kv.2 == "FAIL" || kv.2 == "WARN") = false := by
      simp [h1.1, h1.2]
    simp only [List.foldl_cons, hcond, Bool.false_eq_true, if_false]
    exact ih (fun kv' h' => h kv' (List.mem_cons_of_mem kv h')) acc

/-- C4: with all seven checks in status ERROR the compliance score is 0 and
no recommendation is produced; more generally a run whose statuses avoid
FAIL and WARN yields the empty recommendation list. -/
theorem all_error_zero_score_no_recommendations :
    calculate_compliance_score sevenErrorChecks = 0
    ∧ generate_recommendations sevenErrorChecks = []
    ∧ ∀ checks : List (String × String),
        (∀ kv ∈ checks, kv.2 ≠ "FAIL" ∧ kv.2 ≠ "WARN") →
        generate_recommendations checks = [] := by
  refine ⟨?_, by decide, ?_⟩
  · simp [calculate_compliance_score, sevenErrorChecks, securityCheckNames]
  · intro checks h
    exact genrec_foldl_const checks h []

/-- Witness for C4's general clause at a concrete one-ERROR check map. -/
theorem all_error_zero_score_no_recommendations_witness :
    generate_recommendations [("access_controls", "ERROR")] = [] :=
  all_error_zero_score_no_recommendations.2.2
    [("access_controls", "ERROR")] (by decide)

/-- C5: the compliance score is (PASS count)/(total)·100 with total 0 mapped
to 0; the all-PASS seven-check map scores 100 and any map with no PASS
scores 0. -/
theorem compliance_score_formula :
    (∀ checks : List (String × String),
      calculate_compliance_score checks =
        if checks.length = 0 then 0
        else ((checks.filter (fun kv => kv.2 == "PASS")).length : ℚ)
          / (checks.length : ℚ) * 100)
    ∧ calculate_compliance_score (securityCheckNames.map (fun n => (n, "PASS"))) = 100
    ∧ ∀ checks : List (String × String),
        (∀ kv ∈ checks, kv.2 ≠ "PASS") → calculate_compliance_score checks = 0 := by
  have hformula : ∀ checks : List (String × String),
      calculate_compliance_score checks =
        if checks.length = 0 then 0
        else ((checks.filter (fun kv => kv.2 == "PASS")).length : ℚ)
          / (checks.length : ℚ) * 100 := by
    intro checks
    simp only [calculate_compliance_score]
    rw [compliance_foldl]
    rcases checks with _ | ⟨kv, rest⟩
    · simp
    · simp
  refine ⟨hformula, ?_, ?_⟩
  · simp [calculate_compliance_score, securityCheckNames]
  · intro checks h
    rw [hformula checks]
    have hfil : checks.filter (fun kv => kv.2 == "PASS") = [] := by
      rw [List.filter_eq_nil_iff]
      intro kv hkv
      simp [h kv hkv]
    rw [hfil]
    split
    · rfl
    · simp

/-- Witness for C5's hypothesis-bearing clause at a concrete no-PASS map. -/
theorem compliance_score_formula_witness :
    calculate_compliance_score [("audit_logging", "FAIL")] = 0 :=
  compliance_score_formula.2.2 [("audit_logging", "FAIL")] (by decide)

/-! ### Network security (C8) -/

lemma count_foldl_eq_filter (p : Cluster → Bool) (clusters : List Cluster) (n : Nat) :
    clusters.foldl (fun n c => if p c then n + 1 else n) n
      = n + (clusters.filter p).length := by
  induction clusters generalizing n with
  | nil => simp
  | cons c t ih =>
    cases h : p c with
    | false => simp [List.foldl_cons, List.filter_cons, h, ih]
    | true =>
      simp [List.foldl_cons, List.filter_cons, h, ih]
      omega

/-- C8: the network-security ratio is the fraction of clusters carrying both
an AWS zone id and an instance-profile ARN, guarded to 0 on an empty list;
the status is PASS exactly when the ratio reaches 4/5, and the empty list
gives ratio 0 with status FAIL. -/
theorem network_security_ratio_spec :
    (∀ clusters : List Cluster,
      (check_network_security clusters).security_ratio =
        (if clusters.length = 0 then 0
         else ((clusters.filter
            (fun c => c.aws_zone_id && c.instance_profile_arn)).length : ℚ)
          / (clusters.length : ℚ))
      ∧ ((check_network_security clusters).status = "PASS" ↔
          (check_network_security clusters).security_ratio ≥ 4 / 5))
    ∧ (check_network_security []).security_ratio = 0
    ∧ (check_network_security []).status = "FAIL" := by
  have hratio : ∀ clusters : List Cluster,
      (check_network_security clusters).security_ratio =
        (if clusters.length = 0 then 0
         else ((clusters.filter
            (fun c => c.aws_zone_id && c.instance_profile_arn)).length : ℚ)
          / (clusters.length : ℚ)) := by
    intro clusters
    unfold check_network_security
    dsimp only
    rw [count_foldl_eq_filter (fun c => c.aws_zone_id && c.instance_profile_arn)]
    rcases clusters with _ | ⟨c, rest⟩
    · simp
    · simp
  refine ⟨fun clusters => ⟨hratio clusters, ?_⟩, ?_, ?_⟩
  · unfold check_network_security
    dsimp only
    have h45 : (0.8 : ℚ) = 4 / 5 := by norm_num
    rw [h45]
    split <;> rename_i hc
    · simp [hc]
    · simp [hc]
  · rw [hratio []]
    simp
  · unfold check_network_security
    norm_num

/-- Witness for C8 at a concrete singleton cluster list. -/
theorem network_security_ratio_spec_witness :
    (check_network_security [{ aws_zone_id := true }]).security_ratio =
      (if ([({ aws_zone_id := true } : Cluster)]).length = 0 then 0
       else ((([({ aws_zone_id := true } : Cluster)]).filter
          (fun c => c.aws_zone_id && c.instance_profile_arn)).length : ℚ)
        / (([({ aws_zone_id := true } : Cluster)]).length : ℚ))
    ∧ ((check_network_security [{ aws_zone_id := true }]).status = "PASS" ↔
        (check_network_security [{ aws_zone_id := true }]).security_ratio ≥ 4 / 5) :=
  network_security_ratio_spec.1 [{ aws_zone_id := true }]

/-! ### Determinism of the report (C9) -/

lemma config_time_indep (t₁ t₂ : Int) (c : Cluster)
    (h1 : c.state ≠ "PENDING") (h2 : c.state ≠ "RESTARTING") :
    analyze_cluster_configuration t₁ c = analyze_cluster_configuration t₂ c := by
  unfold analyze_cluster_configuration
  have hb : (c.state == "PENDING" || c.state == "RESTARTING") = false := by
    simp [h1, h2]
  rw [hb]
  simp

lemma utilStep_time_indep (t₁ t₂ : Int) (acc : UtilAcc) (c : Cluster)
    (h1 : c.state ≠ "PENDING") (h2 : c.state ≠ "RESTARTING") :
    utilStep t₁ acc c = utilStep t₂ acc c := by
  unfold utilStep
  rw [config_time_indep t₁ t₂ c h1 h2]

lemma foldl_utilStep_time_indep (t₁ t₂ : Int) (clusters : List Cluster)
    (h : ∀ c ∈ clusters, c.state ≠ "PENDING" ∧ c.state ≠ "RESTARTING")
    (acc : UtilAcc) :
    clusters.foldl (utilStep t₁) acc = clusters.foldl (utilStep t₂) acc := by
  induction clusters generalizing acc with
  | nil => rfl
  | cons c rest ih =>
    have hc := h c (List.mem_cons_self c rest)
    simp only [List.foldl_cons]
    rw [utilStep_time_indep t₁ t₂ acc c hc.1 hc.2]
    exact ih (fun c' h' => h c' (List.mem_cons_of_mem c h')) _

lemma util_time_indep (t₁ t₂ : Int) (clusters : List Cluster)
    (h : ∀ c ∈ clusters, c.state ≠ "PENDING" ∧ c.state ≠ "RESTARTING") :
    analyze_cluster_utilization t₁ clusters = analyze_cluster_utilization t₂ clusters := by
  unfold analyze_cluster_utilization
  rw [foldl_utilStep_time_indep t₁ t₂ clusters h]

/-- C9 (amended): the report content, timestamp excluded, is a deterministic
function of the input and the evaluation clock; it is independent of the
clock — hence identical across two runs — whenever no cluster is in state
`PENDING` or `RESTARTING` (the states feeding the time-dependent idle
check). -/
theorem report_deterministic_modulo_idle_clock (t₁ t₂ days : Int)
    (clusters : List Cluster) (jobs : List Job)
    (h : ∀ c ∈ clusters, c.state ≠ "PENDING" ∧ c.state ≠ "RESTARTING") :
    generate_cost_report_content t₁ days clusters jobs =
    generate_cost_report_content t₂ days clusters jobs := by
  unfold generate_cost_report_content
  rw [util_time_indep t₁ t₂ clusters h]

/-- Witness for C9's amended theorem: a RUNNING cluster evaluated at clock
values 0 and 999999 yields the same report content. -/
theorem report_deterministic_modulo_idle_clock_witness :
    generate_cost_report_content 0 30 [{ state := "RUNNING" }] [] =
    generate_cost_report_content 999999 30 [{ state := "RUNNING" }] [] :=
  report_deterministic_modulo_idle_clock 0 999999 30 [{ state := "RUNNING" }] []
    (by decide)

/-- C9 counterexample: the same input evaluated at clock 0 and at clock
10000 produces different report content (the idle group gains an entry), so
the evaluators are not deterministic functions of the input alone. -/
theorem report_time_dependent_counterexample :
    generate_cost_report_content 0 30 [pendingCluster] [] ≠
    generate_cost_report_content 10000 30 [pendingCluster] [] := by
  intro hcontra
  have hlen := congrArg
    (fun r => r.cluster_analysis.idle_clusters.length) hcontra
  exact absurd hlen (by decide)

end Databricks
